import Mathlib

/-!
Verification development for the `pidrone_pkg` repository.

Two source files are embedded:

* `scripts/picam_flow_class.py` — the `AnalyzeFlow` optical-flow velocity
  estimator: divergence/rotation filter-bank construction (`get_z_filter`,
  `get_yaw_filter`), the per-frame analysis (`analyse`), the IMU attitude-rate
  tracker (`imu_callback`) and the state initialisation (`setup`).
* `scripts/mocap_state_estimator.py` — the `MocapStateEstimator` axis-remap
  utility with its three callbacks (`pose_callback`, `twist_callback`,
  `accel_callback`) and the `received_data` flag.

Modelling conventions:

* Python floats are modelled as exact rationals `ℚ`.
* A numpy 2-d array of shape `rows × cols` is modelled as a total function
  `ℕ → ℕ → ℚ` that is `0` outside the allocated region (matching `np.zeros`
  initialisation), together with the explicit shape constants used by the
  allocation.
* `np.linalg.norm g` (the Euclidean norm of the flattened array) is the unique
  scalar `c ≥ 0` with `c ^ 2 = ` sum of the squares of the entries of `g`.  To
  stay inside exact rational arithmetic the normalisation scalar is passed as
  a parameter `c`, and every theorem about the normalised grids carries the
  characterising hypothesis `c ^ 2 = gridSumSq …`.  (For `c = 0`, rational
  division yields the all-zero grid; numpy would yield NaN — in both semantics
  the resulting grid does not have norm 1, which is all the theorems use.)
* `np.arctan` is an external library function; it is modelled as an abstract
  parameter `atan : ℚ → ℚ`, and the theorems that need it carry the single
  property actually used, `atan 0 = 0`.
* A Python method raising an exception (here: reading the never-initialised
  attribute `self.imu_time` before first assignment) is modelled by an
  `Option` result, `none` meaning the call raises.
-/

/-! ### `AnalyzeFlow.get_z_filter` — filter-bank construction

Source (`picam_flow_class.py`):
```
assert width%16 == 0 and height%16 == 0
num_rows = height/16
num_cols = width/16
mid_row = (num_rows - 1)/2.0
mid_col = (num_cols - 1)/2.0
# the picamera motion vectors have a buffer column each frame
self.z_filter_x = np.zeros((num_rows,num_cols+1))   # dtype float
self.z_filter_y = np.zeros((num_rows,num_cols+1))   # dtype float
for i in range(num_cols):
    for j in range(num_rows):
        x = i - mid_col # center the coords around the middle
        y = j - mid_row
        self.z_filter_x[j,i] = x
        self.z_filter_y[j,i] = y
self.z_filter_x /= np.linalg.norm(self.z_filter_x)
self.z_filter_y /= np.linalg.norm(self.z_filter_y)
```
-/

/-- Source line `num_rows = height/16` (Python 2 integer division on ints). -/
def numRows (height : ℕ) : ℕ := height / 16

/-- Source line `num_cols = width/16`. -/
def numCols (width : ℕ) : ℕ := width / 16

/-- Number of rows of the allocated grids: `np.zeros((num_rows, num_cols+1))`. -/
def gridRows (height : ℕ) : ℕ := numRows height

/-- Number of columns of the allocated grids (one trailing buffer column):
`np.zeros((num_rows, num_cols+1))`. -/
def gridCols (width : ℕ) : ℕ := numCols width + 1

/-- Source line `mid_row = (num_rows - 1)/2.0` (float division, so computed in `ℚ`). -/
def midRow (height : ℕ) : ℚ := ((numRows height : ℚ) - 1) / 2

/-- Source line `mid_col = (num_cols - 1)/2.0`. -/
def midCol (width : ℕ) : ℚ := ((numCols width : ℚ) - 1) / 2

/-- The `z_filter_x` array right after the fill loop, before normalisation:
cell `(j, i)` holds `i - mid_col` when the loop wrote it
(`i < num_cols`, `j < num_rows`) and the `np.zeros` value `0` elsewhere,
in particular in the whole trailing buffer column `i = num_cols`. -/
def z_filter_x_pre (width height : ℕ) (j i : ℕ) : ℚ :=
  if j < numRows height ∧ i < numCols width then (i : ℚ) - midCol width else 0

/-- The `z_filter_y` array right after the fill loop, before normalisation:
cell `(j, i)` holds `j - mid_row` on the written region and `0` elsewhere. -/
def z_filter_y_pre (width height : ℕ) (j i : ℕ) : ℚ :=
  if j < numRows height ∧ i < numCols width then (j : ℚ) - midRow height else 0

/-- Models `np.sum` over a whole grid of shape `num_rows × (num_cols+1)`. -/
def gridSum (width height : ℕ) (g : ℕ → ℕ → ℚ) : ℚ :=
  ∑ j ∈ Finset.range (gridRows height), ∑ i ∈ Finset.range (gridCols width), g j i

/-- Sum of the squares of all entries of a grid; `np.linalg.norm g` is its
square root, so `‖g‖ = 1 ↔ gridSumSq … g = 1`. -/
def gridSumSq (width height : ℕ) (g : ℕ → ℕ → ℚ) : ℚ :=
  gridSum width height (fun j i => g j i ^ 2)

/-- The normalised `z_filter_x`: every entry divided by the scalar
`c = np.linalg.norm(z_filter_x)` (passed as a parameter, characterised in the
theorems by `c ^ 2 = gridSumSq width height (z_filter_x_pre width height)`).
Caution: when the pre-normalisation grid is all zero (`width = 16`) the norm
is `0` and numpy produces an all-NaN grid, while rational division totalises
`0 / 0 = 0`; every theorem whose conclusion depends on the division therefore
carries hypotheses that exclude the zero-norm case (dimensions at least 32
with the norm characterisation), and the zero-norm inputs appear only in
counterexamples, stated via the zero divisor itself. -/
def z_filter_x (width height : ℕ) (c : ℚ) (j i : ℕ) : ℚ :=
  z_filter_x_pre width height j i / c

/-- The normalised `z_filter_y`, analogously; the same caution applies at
`height = 16`, where the pre-normalisation Y grid is all zero. -/
def z_filter_y (width height : ℕ) (c : ℚ) (j i : ℕ) : ℚ :=
  z_filter_y_pre width height j i / c

/-- The method `get_z_filter` as a fallible constructor: the `assert` raises
(`none`) unless both dimensions are multiples of 16, otherwise the two
normalised weight grids are produced (`cx`, `cy` are the two
`np.linalg.norm` scalars). -/
def get_z_filter (width height : ℕ) (cx cy : ℚ) :
    Option ((ℕ → ℕ → ℚ) × (ℕ → ℕ → ℚ)) :=
  if width % 16 = 0 ∧ height % 16 = 0 then
    some (z_filter_x width height cx, z_filter_y width height cy)
  else
    none

/-- The method `get_yaw_filter`: `yaw_filter_x = z_filter_y` (the same array) and
`yaw_filter_y = -1 * z_filter_x`; returns the pair
`(yaw_filter_x, yaw_filter_y)`. -/
def get_yaw_filter (width height : ℕ) (cx cy : ℚ) :
    (ℕ → ℕ → ℚ) × (ℕ → ℕ → ℚ) :=
  (z_filter_y width height cy, fun j i => -1 * z_filter_x width height cx j i)

/-! ### `AnalyzeFlow` state, `setup`, `imu_callback`, `analyse` -/

/-- The mutable attributes of an `AnalyzeFlow` instance that `setup`,
`imu_callback` and `analyse` read or write.  `imu_time` is `Option` because
`setup` does not create the attribute; it first exists after the first
`imu_callback` stores it. -/
structure FlowState where
  z_filter_x : ℕ → ℕ → ℚ
  z_filter_y : ℕ → ℕ → ℚ
  yaw_filter_x : ℕ → ℕ → ℚ
  yaw_filter_y : ℕ → ℕ → ℚ
  ang_vx : ℚ
  ang_vy : ℚ
  prev_angx : ℚ
  prev_angy : ℚ
  prev_imu_time : ℚ
  imu_time : Option ℚ
  prev_time : ℚ
  ang_coefficient : ℚ
  x_motion : ℚ
  y_motion : ℚ
  z_motion : ℚ
  yaw_motion : ℚ
  max_flow : ℚ
  norm_flow_to_cm : ℚ
  flow_coeff : ℚ
  alpha : ℚ

/-- The method `AnalyzeFlow.setup(camera_wh, pub, flow_scale)`:
builds the filters via `get_z_filter`/`get_yaw_filter` (with norm scalars
`cx`, `cy`), zeroes the IMU baseline and the held rates, records the current
wall-clock time `t0` (`time.time()`), and computes
`max_flow = w/16.0 * h/16.0 * 2**7` and `flow_coeff = flow_scale / max_flow`. -/
def setup (width height : ℕ) (cx cy flow_scale t0 : ℚ) : FlowState :=
  { z_filter_x := z_filter_x width height cx
    z_filter_y := z_filter_y width height cy
    yaw_filter_x := (get_yaw_filter width height cx cy).1
    yaw_filter_y := (get_yaw_filter width height cx cy).2
    ang_vx := 0
    ang_vy := 0
    prev_angx := 0
    prev_angy := 0
    prev_imu_time := 0
    imu_time := none
    prev_time := t0
    ang_coefficient := 1
    x_motion := 0
    y_motion := 0
    z_motion := 0
    yaw_motion := 0
    max_flow := (width : ℚ) / 16 * ((height : ℚ) / 16) * 2 ^ 7
    norm_flow_to_cm := flow_scale
    flow_coeff := flow_scale / ((width : ℚ) / 16 * ((height : ℚ) / 16) * 2 ^ 7)
    alpha := 3 / 10 }

/-- The method `AnalyzeFlow.imu_callback(msg)` with the quaternion already converted to
euler angles `(new_angx, new_angy)` and the message timestamp `curr_time`:

```
if self.prev_imu_time != 0:
    self.ang_vx = (new_angx - self.prev_angx)/(curr_time - self.imu_time)
    self.ang_vy = (new_angy - self.prev_angy)/(curr_time - self.imu_time)
    self.prev_angx = new_angx
    self.prev_angy = new_angy
    self.imu_time = curr_time
else:
    self.prev_angx = new_angx
    self.prev_angy = new_angy
    self.imu_time = curr_time
```

Note that `prev_imu_time` is tested but never assigned by any method; only
`imu_time` is.  Reading `self.imu_time` before it was ever stored would raise
`AttributeError`, hence the `Option` result. -/
def imu_callback (s : FlowState) (new_angx new_angy curr_time : ℚ) :
    Option FlowState :=
  if s.prev_imu_time ≠ 0 then
    match s.imu_time with
    | none => none
    | some ti =>
        some { s with
          ang_vx := (new_angx - s.prev_angx) / (curr_time - ti)
          ang_vy := (new_angy - s.prev_angy) / (curr_time - ti)
          prev_angx := new_angx
          prev_angy := new_angy
          imu_time := some curr_time }
  else
    some { s with
      prev_angx := new_angx
      prev_angy := new_angy
      imu_time := some curr_time }

/-- Feeding a list of attitude samples `(new_angx, new_angy, curr_time)` to
`imu_callback` one after the other. -/
def imuRun (s : FlowState) (samples : List (ℚ × ℚ × ℚ)) : Option FlowState :=
  samples.foldl (fun acc p => acc.bind fun st => imu_callback st p.1 p.2.1 p.2.2)
    (some s)

/-- The method `AnalyzeFlow.analyse(a)` on a motion-vector frame with component arrays
`x` and `y` (each of grid shape `num_rows × (num_cols+1)`), at wall-clock time
`curr_time` (`time.time()`), with `atan` modelling `np.arctan`:

```
diff_time = curr_time - self.prev_time
self.prev_time = curr_time
self.x_motion = 0 - np.sum(x)*self.flow_coeff + np.arctan(self.ang_vx*diff_time)*self.ang_coefficient
self.y_motion = np.sum(y)*self.flow_coeff + np.arctan(self.ang_vy*diff_time)*self.ang_coefficient
self.z_motion = np.sum(np.multiply(x, self.z_filter_x)) + np.sum(np.multiply(y, self.z_filter_y))
self.yaw_motion = np.sum(np.multiply(x, self.yaw_filter_x)) + np.sum(np.multiply(y, self.yaw_filter_y))
```

The grid shape is carried by the numpy arrays themselves; here it is passed as
`(width, height)`. -/
def analyse (atan : ℚ → ℚ) (width height : ℕ) (s : FlowState)
    (x y : ℕ → ℕ → ℚ) (curr_time : ℚ) : FlowState :=
  let diff_time := curr_time - s.prev_time
  { s with
    prev_time := curr_time
    x_motion := 0 - gridSum width height x * s.flow_coeff
      + atan (s.ang_vx * diff_time) * s.ang_coefficient
    y_motion := gridSum width height y * s.flow_coeff
      + atan (s.ang_vy * diff_time) * s.ang_coefficient
    z_motion := gridSum width height (fun j i => x j i * s.z_filter_x j i)
      + gridSum width height (fun j i => y j i * s.z_filter_y j i)
    yaw_motion := gridSum width height (fun j i => x j i * s.yaw_filter_x j i)
      + gridSum width height (fun j i => y j i * s.yaw_filter_y j i) }

/-- The velocity estimate published at the end of `analyse`
(`velocity.twist.linear.x/y/z` and `velocity.twist.angular.z`). -/
structure VelocityEstimate where
  vx : ℚ
  vy : ℚ
  vz : ℚ
  yaw_rate : ℚ
  deriving DecidableEq

/-- The message `analyse` publishes on `/pidrone/plane_err`, built from the
four motion fields of the state. -/
def publishVelocity (s : FlowState) : VelocityEstimate :=
  ⟨s.x_motion, s.y_motion, s.z_motion, s.yaw_motion⟩

/-- Modelled from the spec: the picamera motion-vector frames (the source of
the arrays fed to `analyse`) are produced by the camera library, which is not
part of this repository.  Per the spec, a frame for a `width × height`
capture has `height/16` rows. -/
def frameRows (height : ℕ) : ℕ := height / 16

/-- Modelled from the spec: a picamera motion-vector frame has `width/16 + 1`
columns — one trailing padding column per row. -/
def frameCols (width : ℕ) : ℕ := width / 16 + 1

/-! ### `MocapStateEstimator` (`mocap_state_estimator.py`)

ROS message types are modelled structurally with the fields the script
touches; a default-constructed message has every numeric field `0` and every
string empty, matching ROS message default construction.  Everything lives in
the `Mocap` namespace to avoid clashing with Mathlib names. -/

namespace Mocap

/-- Message type `std_msgs/Header` restricted to the fields used: `stamp` (a time, modelled
as `ℚ`) and `frame_id`.  Default-constructed: zero stamp, empty frame id. -/
structure Header where
  stamp : ℚ := 0
  frame_id : String := ""
  deriving DecidableEq

/-- Message type `geometry_msgs/Vector3` (also used for `Point`): defaults to the origin. -/
structure Vector3 where
  x : ℚ := 0
  y : ℚ := 0
  z : ℚ := 0
  deriving DecidableEq

/-- Message type `geometry_msgs/Quaternion`: default-constructed all-zero (note ROS
defaults `w` to `0`, not `1`). -/
structure Quaternion where
  x : ℚ := 0
  y : ℚ := 0
  z : ℚ := 0
  w : ℚ := 0
  deriving DecidableEq

/-- Message type `geometry_msgs/Pose`. -/
structure Pose where
  position : Vector3 := {}
  orientation : Quaternion := {}
  deriving DecidableEq

/-- Message type `geometry_msgs/PoseStamped`. -/
structure PoseStamped where
  header : Header := {}
  pose : Pose := {}
  deriving DecidableEq

/-- Message type `geometry_msgs/PoseWithCovariance` (covariance untouched by the script,
omitted). -/
structure PoseWithCovariance where
  pose : Pose := {}
  deriving DecidableEq

/-- Message type `geometry_msgs/PoseWithCovarianceStamped`. -/
structure PoseWithCovarianceStamped where
  header : Header := {}
  pose : PoseWithCovariance := {}
  deriving DecidableEq

/-- Message type `geometry_msgs/Twist`. -/
structure Twist where
  linear : Vector3 := {}
  angular : Vector3 := {}
  deriving DecidableEq

/-- Message type `geometry_msgs/TwistStamped`. -/
structure TwistStamped where
  header : Header := {}
  twist : Twist := {}
  deriving DecidableEq

/-- Message type `geometry_msgs/TwistWithCovariance` (covariance omitted). -/
structure TwistWithCovariance where
  twist : Twist := {}
  deriving DecidableEq

/-- Message type `geometry_msgs/TwistWithCovarianceStamped`. -/
structure TwistWithCovarianceStamped where
  header : Header := {}
  twist : TwistWithCovariance := {}
  deriving DecidableEq

/-- Message type `geometry_msgs/Accel`. -/
structure Accel where
  linear : Vector3 := {}
  angular : Vector3 := {}
  deriving DecidableEq

/-- Message type `geometry_msgs/AccelStamped`. -/
structure AccelStamped where
  header : Header := {}
  accel : Accel := {}
  deriving DecidableEq

/-- Message type `geometry_msgs/AccelWithCovariance` (covariance omitted). -/
structure AccelWithCovariance where
  accel : Accel := {}
  deriving DecidableEq

/-- Message type `geometry_msgs/AccelWithCovarianceStamped`. -/
structure AccelWithCovarianceStamped where
  header : Header := {}
  accel : AccelWithCovariance := {}
  deriving DecidableEq

/-- The mutable state of a `MocapStateEstimator`: the `received_data` flag
(`False` after `__init__`). -/
structure MocapState where
  received_data : Bool
  deriving DecidableEq

/-- The state right after `MocapStateEstimator.__init__`. -/
def mocapInit : MocapState := ⟨false⟩

/-- The method `MocapStateEstimator.pose_callback(msg)`: republishes the pose with the
mocap axes remapped (`y`/`z` swapped, `x` negated), copying the input header
stamp, setting `frame_id` to the literal World, and sets `self.received_data = True`.
The quaternion `w` component is never assigned, so it keeps its
default-constructed value.  Returns the published message and the new state. -/
def pose_callback (s : MocapState) (msg : PoseStamped) :
    PoseWithCovarianceStamped × MocapState :=
  ( { header := { stamp := msg.header.stamp, frame_id := "World" }
      pose := { pose :=
        { position :=
            { x := -msg.pose.position.x
              y := msg.pose.position.z
              z := msg.pose.position.y }
          orientation :=
            { x := -msg.pose.orientation.x
              y := msg.pose.orientation.z
              z := msg.pose.orientation.y } } } },
    { s with received_data := true } )

/-- The method `MocapStateEstimator.twist_callback(msg)`: republishes the twist with the
axes remapped, copying the input header stamp and setting
`frame_id` to the literal World.  It does not touch `received_data`. -/
def twist_callback (s : MocapState) (msg : TwistStamped) :
    TwistWithCovarianceStamped × MocapState :=
  ( { header := { stamp := msg.header.stamp, frame_id := "World" }
      twist := { twist :=
        { linear :=
            { x := -msg.twist.linear.x
              y := msg.twist.linear.z
              z := msg.twist.linear.y }
          angular :=
            { x := -msg.twist.angular.x
              y := msg.twist.angular.z
              z := msg.twist.angular.y } } } },
    s )

/-- The method `MocapStateEstimator.accel_callback(msg)`: republishes the acceleration
with the axes remapped and `frame_id` set to the literal World.  The line
`accel_to_pub.header.stamp` is a bare attribute access, not an assignment, so
the published header stamp keeps its default-constructed value `0`.  It does
not touch `received_data`. -/
def accel_callback (s : MocapState) (msg : AccelStamped) :
    AccelWithCovarianceStamped × MocapState :=
  ( { header := { frame_id := "World" }
      accel := { accel :=
        { linear :=
            { x := -msg.accel.linear.x
              y := msg.accel.linear.z
              z := msg.accel.linear.y }
          angular :=
            { x := -msg.accel.angular.x
              y := msg.accel.angular.z
              z := msg.accel.angular.y } } } },
    s )

end Mocap

/-! ### Helper lemmas -/

/-- Gauss sum over `ℚ`. -/
lemma sum_range_rat (n : ℕ) :
    ∑ i ∈ Finset.range n, (i : ℚ) = n * ((n : ℚ) - 1) / 2 := by
  induction n with
  | zero => simp
  | succ m ih =>
      rw [Finset.sum_range_succ, ih]
      push_cast
      ring

/-- A range of values centered around its midpoint sums to zero. -/
lemma sum_range_sub_mid (n : ℕ) :
    ∑ i ∈ Finset.range n, ((i : ℚ) - ((n : ℚ) - 1) / 2) = 0 := by
  rw [Finset.sum_sub_distrib, sum_range_rat, Finset.sum_const, Finset.card_range,
    nsmul_eq_mul]
  ring

/-- The unnormalised divergence-X grid sums to zero (each row is centered). -/
lemma gridSum_x_pre (w h : ℕ) : gridSum w h (z_filter_x_pre w h) = 0 := by
  unfold gridSum
  refine Finset.sum_eq_zero fun j hj => ?_
  have hjR : j < numRows h := by simpa [gridRows] using Finset.mem_range.mp hj
  unfold gridCols
  rw [Finset.sum_range_succ]
  have hpad : z_filter_x_pre w h j (numCols w) = 0 := by
    simp [z_filter_x_pre]
  rw [hpad, add_zero]
  have hcell : ∀ i ∈ Finset.range (numCols w),
      z_filter_x_pre w h j i = (i : ℚ) - ((numCols w : ℚ) - 1) / 2 := by
    intro i hi
    simp [z_filter_x_pre, hjR, Finset.mem_range.mp hi, midCol]
  rw [Finset.sum_congr rfl hcell, sum_range_sub_mid]

/-- The unnormalised divergence-Y grid sums to zero (each column is centered). -/
lemma gridSum_y_pre (w h : ℕ) : gridSum w h (z_filter_y_pre w h) = 0 := by
  unfold gridSum
  have hrow : ∀ j ∈ Finset.range (gridRows h),
      ∑ i ∈ Finset.range (gridCols w), z_filter_y_pre w h j i
        = (numCols w : ℚ) * ((j : ℚ) - ((numRows h : ℚ) - 1) / 2) := by
    intro j hj
    have hjR : j < numRows h := by simpa [gridRows] using Finset.mem_range.mp hj
    unfold gridCols
    rw [Finset.sum_range_succ]
    have hpad : z_filter_y_pre w h j (numCols w) = 0 := by
      simp [z_filter_y_pre]
    rw [hpad, add_zero]
    have hcell : ∀ i ∈ Finset.range (numCols w),
        z_filter_y_pre w h j i = (j : ℚ) - ((numRows h : ℚ) - 1) / 2 := by
      intro i hi
      simp [z_filter_y_pre, hjR, Finset.mem_range.mp hi, midRow]
    rw [Finset.sum_congr rfl hcell, Finset.sum_const, Finset.card_range,
      nsmul_eq_mul]
  rw [Finset.sum_congr rfl hrow, ← Finset.mul_sum]
  have : ∑ j ∈ Finset.range (gridRows h), ((j : ℚ) - ((numRows h : ℚ) - 1) / 2) = 0 := by
    simpa [gridRows] using sum_range_sub_mid (numRows h)
  rw [this, mul_zero]

/-- Summing `k * (g/c)` over a grid pulls out the scalar `k/c`. -/
lemma gridSum_mul_div (w h : ℕ) (k c : ℚ) (g : ℕ → ℕ → ℚ) :
    gridSum w h (fun j i => k * (g j i / c)) = k / c * gridSum w h g := by
  unfold gridSum
  rw [Finset.mul_sum]
  refine Finset.sum_congr rfl fun j _ => ?_
  rw [Finset.mul_sum]
  refine Finset.sum_congr rfl fun i _ => ?_
  ring

/-- A grid of zeros sums to zero. -/
lemma gridSum_zero (w h : ℕ) : gridSum w h (fun _ _ => (0 : ℚ)) = 0 := by
  simp [gridSum]

/-- A grid whose entries are all multiplied by the zero frame sums to zero. -/
lemma gridSum_zero_mul (w h : ℕ) (g : ℕ → ℕ → ℚ) :
    gridSum w h (fun j i => 0 * g j i) = 0 := by
  simp [gridSum]

/-- A constant grid sums to (number of cells) · value. -/
lemma gridSum_const (w h : ℕ) (k : ℚ) :
    gridSum w h (fun _ _ => k) = ((gridRows h * gridCols w : ℕ) : ℚ) * k := by
  simp [gridSum, Finset.sum_const, Finset.card_range, nsmul_eq_mul]
  ring

/-- Dividing every grid entry by `c` divides the sum of squares by `c ^ 2`. -/
lemma gridSumSq_div (w h : ℕ) (c : ℚ) (g : ℕ → ℕ → ℚ) :
    gridSumSq w h (fun j i => g j i / c) = gridSumSq w h g / c ^ 2 := by
  unfold gridSumSq gridSum
  rw [Finset.sum_div]
  refine Finset.sum_congr rfl fun j _ => ?_
  rw [Finset.sum_div]
  refine Finset.sum_congr rfl fun i _ => ?_
  simp [div_pow]

/-- With at least two columns and one row, the unnormalised divergence-X grid
has positive sum of squares (the corner cell is nonzero). -/
lemma gridSumSq_x_pre_pos (w h : ℕ) (hC : 2 ≤ numCols w) (hR : 1 ≤ numRows h) :
    0 < gridSumSq w h (z_filter_x_pre w h) := by
  unfold gridSumSq gridSum
  apply Finset.sum_pos'
  · intro j _
    exact Finset.sum_nonneg fun i _ => sq_nonneg _
  · refine ⟨0, Finset.mem_range.mpr ?_, ?_⟩
    · show 0 < gridRows h
      unfold gridRows
      omega
    · apply Finset.sum_pos'
      · intro i _
        exact sq_nonneg _
      · refine ⟨0, Finset.mem_range.mpr ?_, ?_⟩
        · unfold gridCols
          omega
        · have hm : 0 < midCol w := by
            unfold midCol
            have h2 : (2 : ℚ) ≤ (numCols w : ℚ) := by exact_mod_cast hC
            linarith
          have hpre : z_filter_x_pre w h 0 0 = -midCol w := by
            simp [z_filter_x_pre, (by omega : 0 < numRows h),
              (by omega : 0 < numCols w)]
          show 0 < z_filter_x_pre w h 0 0 ^ 2
          rw [hpre, neg_sq]
          exact pow_pos hm 2

/-- With at least two rows and one column, the unnormalised divergence-Y grid
has positive sum of squares. -/
lemma gridSumSq_y_pre_pos (w h : ℕ) (hC : 1 ≤ numCols w) (hR : 2 ≤ numRows h) :
    0 < gridSumSq w h (z_filter_y_pre w h) := by
  unfold gridSumSq gridSum
  apply Finset.sum_pos'
  · intro j _
    exact Finset.sum_nonneg fun i _ => sq_nonneg _
  · refine ⟨0, Finset.mem_range.mpr ?_, ?_⟩
    · show 0 < gridRows h
      unfold gridRows
      omega
    · apply Finset.sum_pos'
      · intro i _
        exact sq_nonneg _
      · refine ⟨0, Finset.mem_range.mpr ?_, ?_⟩
        · unfold gridCols
          omega
        · have hm : 0 < midRow h := by
            unfold midRow
            have h2 : (2 : ℚ) ≤ (numRows h : ℚ) := by exact_mod_cast hR
            linarith
          have hpre : z_filter_y_pre w h 0 0 = -midRow h := by
            simp [z_filter_y_pre, (by omega : 0 < numRows h),
              (by omega : 0 < numCols w)]
          show 0 < z_filter_y_pre w h 0 0 ^ 2
          rw [hpre, neg_sq]
          exact pow_pos hm 2

/-- A fold of `imuRun` from a dead accumulator stays dead. -/
lemma imuRun_foldl_none (samples : List (ℚ × ℚ × ℚ)) :
    samples.foldl
      (fun acc p => acc.bind fun st => imu_callback st p.1 p.2.1 p.2.2)
      none = none := by
  induction samples with
  | nil => rfl
  | cons p tl ih => simpa [List.foldl] using ih

/-- Unfolding one step of `imuRun`. -/
lemma imuRun_cons (s : FlowState) (p : ℚ × ℚ × ℚ) (tl : List (ℚ × ℚ × ℚ)) :
    imuRun s (p :: tl)
      = (imu_callback s p.1 p.2.1 p.2.2).bind fun s' => imuRun s' tl := by
  cases hc : imu_callback s p.1 p.2.1 p.2.2 with
  | none => simp [imuRun, List.foldl, hc, imuRun_foldl_none]
  | some s' => simp [imuRun, List.foldl, hc]

/-- The callback `imu_callback` never writes `prev_imu_time`, so the zero value installed
by `setup` is preserved by any single call. -/
lemma imu_callback_prev_imu_time (s : FlowState) (a b t : ℚ) (s' : FlowState)
    (h0 : s.prev_imu_time = 0) (hc : imu_callback s a b t = some s') :
    s'.prev_imu_time = 0 := by
  unfold imu_callback at hc
  rw [h0] at hc
  simp at hc
  rw [← hc]

/-- The `prev_imu_time = 0` invariant is preserved by any run of attitude
samples. -/
lemma imuRun_prev_imu_time (samples : List (ℚ × ℚ × ℚ)) :
    ∀ s s' : FlowState, s.prev_imu_time = 0 → imuRun s samples = some s' →
      s'.prev_imu_time = 0 := by
  induction samples with
  | nil =>
      intro s s' h0 hrun
      have : s = s' := by simpa [imuRun] using hrun
      rw [← this]
      exact h0
  | cons p tl ih =>
      intro s s' h0 hrun
      rw [imuRun_cons] at hrun
      cases hc : imu_callback s p.1 p.2.1 p.2.2 with
      | none => rw [hc] at hrun; simp at hrun
      | some s1 =>
          rw [hc] at hrun
          simp at hrun
          exact ih s1 s' (imu_callback_prev_imu_time s p.1 p.2.1 p.2.2 s1 h0 hc) hrun

/-! ### Claim theorems -/

/-- Claim C1 (code bug, evaluated at the failing input): after `setup`,
feeding the attitude samples `(roll 0, pitch 0, t = 1)` and then
`(roll 1/10, pitch 1/10, t = 11/10)` — a strictly later timestamp with a
`0.1 rad` angle change over `0.1 s` — leaves the held rates `ang_vx`,
`ang_vy` at `0`, not at the `1.0 rad/s` the claim requires: the
rate-update branch of `imu_callback` tests `prev_imu_time != 0`, but no
method ever assigns `prev_imu_time` (only `imu_time`), so the branch is
unreachable. -/
theorem claim_C1_rate_update_dead :
    (imuRun (setup 320 240 1 1 (33/2) 0)
        [(0, 0, 1), (1/10, 1/10, 11/10)]).map FlowState.ang_vx = some 0
    ∧ (imuRun (setup 320 240 1 1 (33/2) 0)
        [(0, 0, 1), (1/10, 1/10, 11/10)]).map FlowState.ang_vy = some 0 := by
  constructor <;> rfl

/-- Claim C2: in any reachable state (any sample history after `setup`),
processing a second attitude sample whose timestamp `t` equals the stored
baseline timestamp succeeds (no division error is raised) and retains the
previously held roll/pitch rates unchanged. -/
theorem claim_C2_duplicate_timestamp_noop
    (w h : ℕ) (cx cy fs t0 : ℚ) (samples : List (ℚ × ℚ × ℚ))
    (s : FlowState) (a b t : ℚ)
    (hrun : imuRun (setup w h cx cy fs t0) samples = some s)
    (ht : s.imu_time = some t) :
    (imu_callback s a b t).map FlowState.ang_vx = some s.ang_vx
    ∧ (imu_callback s a b t).map FlowState.ang_vy = some s.ang_vy
    ∧ (imu_callback s a b t).isSome = true := by
  have h0 : s.prev_imu_time = 0 :=
    imuRun_prev_imu_time samples (setup w h cx cy fs t0) s rfl hrun
  have hcall : imu_callback s a b t
      = some { s with prev_angx := a, prev_angy := b, imu_time := some t } := by
    simp [imu_callback, h0]
  rw [hcall]
  exact ⟨rfl, rfl, rfl⟩

/-- Witness for C2: after one sample `(0, 0, t = 1)`, a second sample at the
identical timestamp `1` keeps the held rates (both `0`). -/
theorem claim_C2_witness :
    (imu_callback { setup 320 240 1 1 (33/2) 0 with
        prev_angx := 0, prev_angy := 0, imu_time := some 1 } (1/2) (1/2) 1).map
      FlowState.ang_vx = some 0
    ∧ (imu_callback { setup 320 240 1 1 (33/2) 0 with
        prev_angx := 0, prev_angy := 0, imu_time := some 1 } (1/2) (1/2) 1).map
      FlowState.ang_vy = some 0
    ∧ (imu_callback { setup 320 240 1 1 (33/2) 0 with
        prev_angx := 0, prev_angy := 0, imu_time := some 1 } (1/2) (1/2) 1).isSome
      = true :=
  claim_C2_duplicate_timestamp_noop 320 240 1 1 (33/2) 0 [(0, 0, 1)] _
    (1/2) (1/2) 1 (by rfl) (by rfl)

/-- Claim C3: on a uniform motion-vector frame (every cell `dx = k`,
`dy = 0`), with the held attitude rates at zero (the `setup` state), the
estimate has `vz = 0` and `yaw_rate = 0` exactly, and the lateral `x`
component equals `-k ·` (number of cells) `· flow_coeff`; the `y` component
is `0`. -/
theorem claim_C3_uniform_translation
    (atan : ℚ → ℚ) (w h : ℕ) (cx cy fs t0 ct k : ℚ)
    (hw : w % 16 = 0) (hh : h % 16 = 0) (hatan : atan 0 = 0) :
    (publishVelocity (analyse atan w h (setup w h cx cy fs t0)
        (fun _ _ => k) (fun _ _ => 0) ct)).vz = 0
    ∧ (publishVelocity (analyse atan w h (setup w h cx cy fs t0)
        (fun _ _ => k) (fun _ _ => 0) ct)).yaw_rate = 0
    ∧ (publishVelocity (analyse atan w h (setup w h cx cy fs t0)
        (fun _ _ => k) (fun _ _ => 0) ct)).vx
      = -(k * ((gridRows h * gridCols w : ℕ) : ℚ)
          * (setup w h cx cy fs t0).flow_coeff)
    ∧ (publishVelocity (analyse atan w h (setup w h cx cy fs t0)
        (fun _ _ => k) (fun _ _ => 0) ct)).vy = 0 := by
  refine ⟨?_, ?_, ?_, ?_⟩
  · show gridSum w h (fun j i => k * (z_filter_x_pre w h j i / cx))
        + gridSum w h (fun j i => 0 * z_filter_y w h cy j i) = 0
    rw [gridSum_mul_div, gridSum_x_pre, gridSum_zero_mul]
    ring
  · show gridSum w h (fun j i => k * (z_filter_y_pre w h j i / cy))
        + gridSum w h (fun j i => 0 * (get_yaw_filter w h cx cy).2 j i) = 0
    rw [gridSum_mul_div, gridSum_y_pre, gridSum_zero_mul]
    ring
  · show 0 - gridSum w h (fun _ _ => k) * (setup w h cx cy fs t0).flow_coeff
        + atan (0 * (ct - t0)) * 1
      = -(k * ((gridRows h * gridCols w : ℕ) : ℚ)
          * (setup w h cx cy fs t0).flow_coeff)
    rw [gridSum_const, zero_mul, hatan]
    ring
  · show gridSum w h (fun _ _ => (0 : ℚ)) * (setup w h cx cy fs t0).flow_coeff
        + atan (0 * (ct - t0)) * 1 = 0
    rw [gridSum_zero, zero_mul, zero_mul, hatan]
    ring

/-- Witness for C3 at `320 × 240`, `k = 2`. -/
theorem claim_C3_witness :
    (publishVelocity (analyse (fun q => q) 320 240 (setup 320 240 1 1 (33/2) 0)
        (fun _ _ => 2) (fun _ _ => 0) 1)).vz = 0
    ∧ (publishVelocity (analyse (fun q => q) 320 240 (setup 320 240 1 1 (33/2) 0)
        (fun _ _ => 2) (fun _ _ => 0) 1)).yaw_rate = 0
    ∧ (publishVelocity (analyse (fun q => q) 320 240 (setup 320 240 1 1 (33/2) 0)
        (fun _ _ => 2) (fun _ _ => 0) 1)).vx
      = -(2 * ((gridRows 240 * gridCols 320 : ℕ) : ℚ)
          * (setup 320 240 1 1 (33/2) 0).flow_coeff)
    ∧ (publishVelocity (analyse (fun q => q) 320 240 (setup 320 240 1 1 (33/2) 0)
        (fun _ _ => 2) (fun _ _ => 0) 1)).vy = 0 :=
  claim_C3_uniform_translation (fun q => q) 320 240 1 1 (33/2) 0 1 2 rfl rfl rfl

/-- Counterexample to C4 as stated: at `width = 16`, `height = 32` (both
multiples of 16) the unnormalised divergence-X grid is all zero, so
`np.linalg.norm` is `0`; after the division the sum of squares of the grid is `0`,
not `1`, i.e. the X grid is not unit-norm. -/
theorem claim_C4_counterexample :
    16 % 16 = 0 ∧ 32 % 16 = 0
    ∧ gridSumSq 16 32 (z_filter_x_pre 16 32) = 0
    ∧ gridSumSq 16 32 (z_filter_x 16 32 0) = 0
    ∧ gridSumSq 16 32 (z_filter_x 16 32 0) ≠ 1 := by
  refine ⟨rfl, rfl, ?_, ?_, ?_⟩ <;>
    norm_num [gridSumSq, gridSum, gridRows, gridCols, numRows, numCols,
      z_filter_x, z_filter_x_pre, midCol, Finset.sum_range_succ,
      Finset.sum_range_zero]

/-- Claim C4 (amended: both source dimensions multiples of 16 *and at least
32*, so that each grid has a nonzero entry): after construction the
divergence-X and divergence-Y grids each have Euclidean norm exactly 1,
stated as sum-of-squares `= 1` (for a nonnegative norm, `‖g‖ = 1` iff the
sum of squares of the entries is `1`). -/
theorem claim_C4_unit_norm
    (w h : ℕ) (cx cy : ℚ)
    (hw : w % 16 = 0) (hh : h % 16 = 0) (hw32 : 32 ≤ w) (hh32 : 32 ≤ h)
    (hcx : cx ^ 2 = gridSumSq w h (z_filter_x_pre w h))
    (hcy : cy ^ 2 = gridSumSq w h (z_filter_y_pre w h)) :
    gridSumSq w h (z_filter_x w h cx) = 1
    ∧ gridSumSq w h (z_filter_y w h cy) = 1 := by
  have hC : 2 ≤ numCols w := by
    unfold numCols
    omega
  have hR : 2 ≤ numRows h := by
    unfold numRows
    omega
  have hpx := gridSumSq_x_pre_pos w h hC (by omega)
  have hpy := gridSumSq_y_pre_pos w h (by omega) hR
  constructor
  · have e1 : gridSumSq w h (z_filter_x w h cx)
        = gridSumSq w h (z_filter_x_pre w h) / cx ^ 2 :=
      gridSumSq_div w h cx (z_filter_x_pre w h)
    rw [e1, ← hcx, hcx]
    exact div_self (ne_of_gt hpx)
  · have e2 : gridSumSq w h (z_filter_y w h cy)
        = gridSumSq w h (z_filter_y_pre w h) / cy ^ 2 :=
      gridSumSq_div w h cy (z_filter_y_pre w h)
    rw [e2, ← hcy, hcy]
    exact div_self (ne_of_gt hpy)

/-- Witness for C4 (amended) at `32 × 32`, where both norms are exactly 1. -/
theorem claim_C4_witness :
    gridSumSq 32 32 (z_filter_x 32 32 1) = 1
    ∧ gridSumSq 32 32 (z_filter_y 32 32 1) = 1 :=
  claim_C4_unit_norm 32 32 1 1 rfl rfl (by norm_num) (by norm_num)
    (by norm_num [gridSumSq, gridSum, gridRows, gridCols, numRows, numCols,
      z_filter_x_pre, midCol, Finset.sum_range_succ, Finset.sum_range_zero])
    (by norm_num [gridSumSq, gridSum, gridRows, gridCols, numRows, numCols,
      z_filter_y_pre, midRow, Finset.sum_range_succ, Finset.sum_range_zero])

/-- Counterexample to C5 as stated: the claim quantifies over every pair of
multiples of 16, but at `width = 16`, `height = 32` the pre-normalisation X
grid is all zero (its sum of squares is `0`), so the `np.linalg.norm` divisor
is `0` — the unique scalar `c ≥ 0` with `c ^ 2 = 0` — and the normalisation
divides every entry, the padding column's `0` included, by `0`: in numpy the
whole grid, padding column included, becomes NaN, not the claimed zero.
(Exact rational arithmetic cannot express NaN, so the refutation is exhibited
by the zero divisor and the `0 / 0` padding entry.) -/
theorem claim_C5_counterexample :
    16 % 16 = 0 ∧ 32 % 16 = 0
    ∧ gridSumSq 16 32 (z_filter_x_pre 16 32) = 0
    ∧ z_filter_x_pre 16 32 0 (numCols 16) = 0 := by
  refine ⟨rfl, rfl, ?_, ?_⟩
  · norm_num [gridSumSq, gridSum, gridRows, gridCols, numRows, numCols,
      z_filter_x_pre, midCol, Finset.sum_range_succ, Finset.sum_range_zero]
  · simp [z_filter_x_pre]

/-- Claim C5 (amended: both source dimensions multiples of 16 *and at least
32*, so both normalisation divisors are nonzero — at `width = 16` or
`height = 16` the corresponding grid is all zero, its norm is `0`, and
normalisation turns every entry, padding included, into NaN in numpy): the
weight grids are allocated with `height/16` rows and `width/16 + 1` columns;
the trailing padding column (index `num_cols`) is zero after construction
and normalisation (`0` divided by the nonzero norm); and at `320 × 240` the
grid shape equals the motion-vector frame shape (including the padding
column). -/
theorem claim_C5_grid_shape
    (w h : ℕ) (cx cy : ℚ) (j : ℕ)
    (hw : w % 16 = 0) (hh : h % 16 = 0) (hw32 : 32 ≤ w) (hh32 : 32 ≤ h)
    (hcx : cx ^ 2 = gridSumSq w h (z_filter_x_pre w h))
    (hcy : cy ^ 2 = gridSumSq w h (z_filter_y_pre w h)) :
    gridRows h = h / 16
    ∧ gridCols w = w / 16 + 1
    ∧ z_filter_x w h cx j (numCols w) = 0
    ∧ z_filter_y w h cy j (numCols w) = 0
    ∧ gridRows 240 = frameRows 240
    ∧ gridCols 320 = frameCols 320 := by
  refine ⟨rfl, rfl, ?_, ?_, rfl, rfl⟩
  · have hz : z_filter_x_pre w h j (numCols w) = 0 := by
      simp [z_filter_x_pre]
    show z_filter_x_pre w h j (numCols w) / cx = 0
    rw [hz, zero_div]
  · have hz : z_filter_y_pre w h j (numCols w) = 0 := by
      simp [z_filter_y_pre]
    show z_filter_y_pre w h j (numCols w) / cy = 0
    rw [hz, zero_div]

/-- Witness for C5 (amended) at `32 × 32`, row 0, where both norms are
exactly 1 (the frame-shape conjuncts concern the working `320 × 240`
resolution and are constants). -/
theorem claim_C5_witness :
    gridRows 32 = 32 / 16
    ∧ gridCols 32 = 32 / 16 + 1
    ∧ z_filter_x 32 32 1 0 (numCols 32) = 0
    ∧ z_filter_y 32 32 1 0 (numCols 32) = 0
    ∧ gridRows 240 = frameRows 240
    ∧ gridCols 320 = frameCols 320 :=
  claim_C5_grid_shape 32 32 1 1 0 rfl rfl (by norm_num) (by norm_num)
    (by norm_num [gridSumSq, gridSum, gridRows, gridCols, numRows, numCols,
      z_filter_x_pre, midCol, Finset.sum_range_succ, Finset.sum_range_zero])
    (by norm_num [gridSumSq, gridSum, gridRows, gridCols, numRows, numCols,
      z_filter_y_pre, midRow, Finset.sum_range_succ, Finset.sum_range_zero])

/-- Claim C6: on the first camera tick after `setup` (no attitude samples
processed, held rates still zero), an all-zero motion-vector frame produces
a velocity estimate with `vx = vy = vz = yaw_rate = 0`: the arctangent
angle-compensation term is `arctan(0 · dt) = 0` for any elapsed interval. -/
theorem claim_C6_first_tick_zero
    (atan : ℚ → ℚ) (w h : ℕ) (cx cy fs t0 ct : ℚ) (hatan : atan 0 = 0) :
    (publishVelocity (analyse atan w h (setup w h cx cy fs t0)
        (fun _ _ => 0) (fun _ _ => 0) ct)).vx = 0
    ∧ (publishVelocity (analyse atan w h (setup w h cx cy fs t0)
        (fun _ _ => 0) (fun _ _ => 0) ct)).vy = 0
    ∧ (publishVelocity (analyse atan w h (setup w h cx cy fs t0)
        (fun _ _ => 0) (fun _ _ => 0) ct)).vz = 0
    ∧ (publishVelocity (analyse atan w h (setup w h cx cy fs t0)
        (fun _ _ => 0) (fun _ _ => 0) ct)).yaw_rate = 0 := by
  refine ⟨?_, ?_, ?_, ?_⟩
  · show 0 - gridSum w h (fun _ _ => (0 : ℚ)) * (setup w h cx cy fs t0).flow_coeff
        + atan (0 * (ct - t0)) * 1 = 0
    rw [gridSum_zero, zero_mul, zero_mul, hatan]
    ring
  · show gridSum w h (fun _ _ => (0 : ℚ)) * (setup w h cx cy fs t0).flow_coeff
        + atan (0 * (ct - t0)) * 1 = 0
    rw [gridSum_zero, zero_mul, zero_mul, hatan]
    ring
  · show gridSum w h (fun j i => 0 * z_filter_x w h cx j i)
        + gridSum w h (fun j i => 0 * z_filter_y w h cy j i) = 0
    rw [gridSum_zero_mul, gridSum_zero_mul]
    ring
  · show gridSum w h (fun j i => 0 * (get_yaw_filter w h cx cy).1 j i)
        + gridSum w h (fun j i => 0 * (get_yaw_filter w h cx cy).2 j i) = 0
    rw [gridSum_zero_mul, gridSum_zero_mul]
    ring

/-- Witness for C6 at `320 × 240`. -/
theorem claim_C6_witness :
    (publishVelocity (analyse (fun q => q) 320 240 (setup 320 240 1 1 (33/2) 0)
        (fun _ _ => 0) (fun _ _ => 0) 0)).vx = 0
    ∧ (publishVelocity (analyse (fun q => q) 320 240 (setup 320 240 1 1 (33/2) 0)
        (fun _ _ => 0) (fun _ _ => 0) 0)).vy = 0
    ∧ (publishVelocity (analyse (fun q => q) 320 240 (setup 320 240 1 1 (33/2) 0)
        (fun _ _ => 0) (fun _ _ => 0) 0)).vz = 0
    ∧ (publishVelocity (analyse (fun q => q) 320 240 (setup 320 240 1 1 (33/2) 0)
        (fun _ _ => 0) (fun _ _ => 0) 0)).yaw_rate = 0 :=
  claim_C6_first_tick_zero (fun q => q) 320 240 1 1 (33/2) 0 0 rfl

/-- Claim C7: the rotation (yaw) filter is the 90°-rotated divergence filter,
element-wise: `yaw_filter_x[j,i] = z_filter_y[j,i]` and
`yaw_filter_y[j,i] = -z_filter_x[j,i]`. -/
theorem claim_C7_yaw_is_rotated_divergence
    (w h : ℕ) (cx cy : ℚ) (j i : ℕ) :
    (get_yaw_filter w h cx cy).1 j i = z_filter_y w h cy j i
    ∧ (get_yaw_filter w h cx cy).2 j i = -(z_filter_x w h cx j i) := by
  constructor
  · rfl
  · show -1 * z_filter_x w h cx j i = -(z_filter_x w h cx j i)
    rw [neg_one_mul]

/-- Claim C8: filter-bank construction fails (the `assert` raises) iff one of
the source dimensions is not a multiple of 16; when both are, it succeeds and
returns exactly the two normalised weight grids. -/
theorem claim_C8_invalid_geometry (w h : ℕ) (cx cy : ℚ) :
    (get_z_filter w h cx cy = none ↔ ¬(w % 16 = 0 ∧ h % 16 = 0))
    ∧ (w % 16 = 0 → h % 16 = 0 →
        get_z_filter w h cx cy
          = some (z_filter_x w h cx, z_filter_y w h cy)) := by
  constructor
  · by_cases hc : w % 16 = 0 ∧ h % 16 = 0
    · simp [get_z_filter, hc]
    · simp [get_z_filter, hc]
  · intro h1 h2
    simp [get_z_filter, h1, h2]

/-- Witness for C8: at `320 × 240` construction succeeds. -/
theorem claim_C8_witness :
    get_z_filter 320 240 1 1 = some (z_filter_x 320 240 1, z_filter_y 320 240 1) :=
  (claim_C8_invalid_geometry 320 240 1 1).2 rfl rfl

/-- Counterexample to C9 as stated: starting from the freshly constructed
estimator, the first received sample being a twist (or an acceleration)
leaves `received_data` at `False` — only the pose callback sets it. -/
theorem claim_C9_counterexample :
    Mocap.mocapInit.received_data = false
    ∧ (Mocap.twist_callback Mocap.mocapInit {}).2.received_data = false
    ∧ (Mocap.accel_callback Mocap.mocapInit {}).2.received_data = false :=
  ⟨rfl, rfl, rfl⟩

/-- Claim C9 (amended): only the pose callback signals "data is flowing" —
after any pose sample `received_data` is `True`, while the twist and
acceleration callbacks leave the estimator state unchanged. -/
theorem claim_C9_received_data_flag
    (s : Mocap.MocapState) (pmsg : Mocap.PoseStamped)
    (tmsg : Mocap.TwistStamped) (amsg : Mocap.AccelStamped) :
    (Mocap.pose_callback s pmsg).2.received_data = true
    ∧ (Mocap.twist_callback s tmsg).2 = s
    ∧ (Mocap.accel_callback s amsg).2 = s :=
  ⟨rfl, rfl, rfl⟩

/-- Claim C10: the pose and twist callbacks copy the input header stamp onto
the republished message, while the acceleration callback leaves the
republished stamp at its default-constructed value, `0`, regardless of the
input. -/
theorem claim_C10_header_stamp_propagation
    (s : Mocap.MocapState) (pmsg : Mocap.PoseStamped)
    (tmsg : Mocap.TwistStamped) (amsg : Mocap.AccelStamped) :
    (Mocap.pose_callback s pmsg).1.header.stamp = pmsg.header.stamp
    ∧ (Mocap.twist_callback s tmsg).1.header.stamp = tmsg.header.stamp
    ∧ (Mocap.accel_callback s amsg).1.header.stamp = ({} : Mocap.Header).stamp
    ∧ ({} : Mocap.Header).stamp = 0 :=
  ⟨rfl, rfl, rfl, rfl⟩
